import Mathlib

/-!
Verification development for the pov-sim flights service
(src/flights/app.py).  The four Flask handlers (health, home,
get_flights, book_flight) are embedded as pure Lean functions.  The
random generator utils.get_random_int is an external collaborator of the
handlers; the handlers are parameterized over it, and a spec-modelled
version of it is defined separately.
-/

/-- Severity level of a log record (logger.info / logger.error). -/
inductive LogLevel where
  | info
  | error
  deriving DecidableEq, Repr

/-- A structured log record: severity plus formatted message. -/
structure LogRecord where
  level : LogLevel
  msg : String
  deriving DecidableEq, Repr

/-- JSON-like values, enough to model the jsonify bodies of app.py:
objects, arrays, strings, numbers and null. -/
inductive JVal where
  | null
  | str (s : String)
  | num (n : Nat)
  | arr (xs : List JVal)
  | obj (fields : List (String × JVal))

/-- Python truthiness of an optional string:
request.args.get returns None when the parameter is absent, and the
empty string is falsy. -/
def truthy : Option String → Bool
  | none => false
  | some s => s ≠ ""

/-- Python %s / f-string rendering of an optional string:
None prints as "None", a string prints as itself. -/
def pyStr : Option String → String
  | none => "None"
  | some s => s

/-- jsonify of a possibly-absent string field: None becomes JSON null. -/
def jsonOptStr : Option String → JVal
  | none => JVal.null
  | some s => JVal.str s

/-- The observable outcome of one handler invocation: the log records it
emitted, in order, and either an uncaught exception message
(Except.error, propagating to the transport layer as a 500) or a
response body with its HTTP status code (Except.ok). -/
structure HandlerOutput where
  logs : List LogRecord
  result : Except String (JVal × Nat)

/-- Modelled from the spec: utils.get_random_int, the Random Identifier
Generator, is imported by app.py but its source (utils.py) is not in the
repository snapshot.  Contract per the spec: RandomInt(low, high)
returns an integer in the inclusive range [low, high].  The draw r is
the external randomness; reduction modulo the range size keeps the
result in bounds and reaches every value of the range as r varies. -/
def get_random_int (low high : Nat) (r : Nat) : Nat :=
  low + r % (high - low + 1)

/-- Handler for GET /health (app.py, health). -/
def health : HandlerOutput :=
  { logs := [⟨LogLevel.info, "Health check endpoint called"⟩]
  , result := Except.ok (JVal.obj [("status", JVal.str "healthy")], 200) }

/-- Handler for GET / (app.py, home). -/
def home : HandlerOutput :=
  { logs := [⟨LogLevel.info, "Home endpoint called"⟩]
  , result := Except.ok (JVal.obj [("message", JVal.str "ok")], 200) }

/-- Handler for GET /flights/<airline> (app.py, get_flights).
gen stands for the injected utils.get_random_int collaborator already
applied to nothing: the handler calls gen 100 999 exactly where the
source calls get_random_int(100, 999).  raiseArg is the optional
"raise" query parameter. -/
def get_flights (gen : Nat → Nat → Nat) (airline : String)
    (raiseArg : Option String) : HandlerOutput :=
  let status_code := raiseArg
  let entryLog : LogRecord :=
    ⟨LogLevel.info,
     "Get flights endpoint called for airline=" ++ airline ++
       ", raise=" ++ pyStr status_code⟩
  if truthy status_code then
    { logs := [entryLog,
        ⟨LogLevel.error,
         "Exception intentionally raised in flights endpoint for airline="
           ++ airline⟩]
    , result := Except.error ("Encountered " ++ pyStr status_code ++ " error") }
  else
    let random_int := gen 100 999
    { logs := [entryLog,
        ⟨LogLevel.info,
         "Returning flight " ++ toString random_int ++ " for airline " ++
           airline⟩]
    , result := Except.ok (JVal.obj [(airline, JVal.arr [JVal.num random_int])], 200) }

/-- Handler for POST /flight (app.py, book_flight).
passenger_name, flight_num and raiseArg are the optional query
parameters as returned by request.args.get (None when absent). -/
def book_flight (gen : Nat → Nat → Nat) (passenger_name flight_num : Option String)
    (raiseArg : Option String) : HandlerOutput :=
  let status_code := raiseArg
  let entryLog : LogRecord :=
    ⟨LogLevel.info,
     "Book flight endpoint called for passenger=" ++ pyStr passenger_name ++
       ", flight_num=" ++ pyStr flight_num ++ ", raise=" ++ pyStr status_code⟩
  if truthy status_code then
    { logs := [entryLog,
        ⟨LogLevel.error,
         "Exception intentionally raised in book flight endpoint for passenger="
           ++ pyStr passenger_name⟩]
    , result := Except.error ("Encountered " ++ pyStr status_code ++ " error") }
  else
    let booking_id := gen 100 999
    { logs := [entryLog,
        ⟨LogLevel.info,
         "Booked flight " ++ pyStr flight_num ++ " for passenger " ++
           pyStr passenger_name ++ " with booking_id " ++ toString booking_id⟩]
    , result := Except.ok
        (JVal.obj [("passenger_name", jsonOptStr passenger_name),
                   ("flight_num", jsonOptStr flight_num),
                   ("booking_id", JVal.num booking_id)], 200) }

/-- C1: for every LookupFlight and every BookFlight request whose raise
query parameter is a non-empty string s, the handler emits an
error-severity log record and the result is an uncaught exception whose
message embeds s, i.e. Except.error rather than a response; this holds
for every non-empty s, not only "500". -/
theorem C1_failure_injection (gen : Nat → Nat → Nat) (airline : String)
    (p fn : Option String) (s : String) (hs : s ≠ "") :
    ((get_flights gen airline (some s)).result =
        Except.error ("Encountered " ++ s ++ " error")
      ∧ (⟨LogLevel.error,
          "Exception intentionally raised in flights endpoint for airline="
            ++ airline⟩ : LogRecord) ∈ (get_flights gen airline (some s)).logs)
    ∧ ((book_flight gen p fn (some s)).result =
        Except.error ("Encountered " ++ s ++ " error")
      ∧ (⟨LogLevel.error,
          "Exception intentionally raised in book flight endpoint for passenger="
            ++ pyStr p⟩ : LogRecord) ∈ (book_flight gen p fn (some s)).logs) := by
  simp [get_flights, book_flight, truthy, pyStr, hs]

/-- Closed witness for C1 at the concrete code "503". -/
theorem C1_failure_injection_witness :
    (get_flights (fun _ _ => 0) "AA" (some "503")).result =
      Except.error "Encountered 503 error" :=
  (C1_failure_injection (fun _ _ => 0) "AA" none none "503" (by decide)).1.1

/-- C2: every integer produced by the Random Identifier Generator on
behalf of LookupFlight (the flight number) and BookFlight (the
booking_id) lies in the closed range 100..999: for every randomness
draw r, get_random_int 100 999 r is in range, and the success bodies of
both handlers carry exactly that integer. -/
theorem C2_generated_range (r : Nat) (airline : String) (p fn : Option String) :
    (100 ≤ get_random_int 100 999 r ∧ get_random_int 100 999 r ≤ 999)
    ∧ (get_flights (fun low high => get_random_int low high r) airline none).result
        = Except.ok
            (JVal.obj [(airline, JVal.arr [JVal.num (get_random_int 100 999 r)])], 200)
    ∧ (book_flight (fun low high => get_random_int low high r) p fn none).result
        = Except.ok
            (JVal.obj [("passenger_name", jsonOptStr p),
                       ("flight_num", jsonOptStr fn),
                       ("booking_id", JVal.num (get_random_int 100 999 r))], 200) := by
  refine ⟨⟨?_, ?_⟩, ?_, ?_⟩
  · simp [get_random_int]
  · have h : r % (999 - 100 + 1) < 900 := Nat.mod_lt r (by norm_num)
    simp only [get_random_int]
    omega
  · simp [get_flights, truthy]
  · simp [book_flight, truthy]

/-- C3: without a truthy raise parameter every one of the four
operations succeeds with status 200 and the expected body keys, and an
injected failure occurs in a handler only when the caller supplied a
truthy (non-empty) raise value: no other error path exists. -/
theorem C3_success_and_only_injected (gen : Nat → Nat → Nat) (airline : String)
    (p fn ra : Option String) (h : truthy ra = false) :
    health.result = Except.ok (JVal.obj [("status", JVal.str "healthy")], 200)
    ∧ home.result = Except.ok (JVal.obj [("message", JVal.str "ok")], 200)
    ∧ (get_flights gen airline ra).result
        = Except.ok (JVal.obj [(airline, JVal.arr [JVal.num (gen 100 999)])], 200)
    ∧ (book_flight gen p fn ra).result
        = Except.ok
            (JVal.obj [("passenger_name", jsonOptStr p),
                       ("flight_num", jsonOptStr fn),
                       ("booking_id", JVal.num (gen 100 999))], 200)
    ∧ (∀ ra2 e, (get_flights gen airline ra2).result = Except.error e →
        truthy ra2 = true)
    ∧ (∀ ra2 e, (book_flight gen p fn ra2).result = Except.error e →
        truthy ra2 = true) := by
  refine ⟨rfl, rfl, by simp [get_flights, h], by simp [book_flight, h], ?_, ?_⟩
  · intro ra2 e he
    by_contra hray
    simp [get_flights, eq_false_of_ne_true hray] at he
  · intro ra2 e he
    by_contra hray
    simp [book_flight, eq_false_of_ne_true hray] at he

/-- Closed witness for C3: with the raise parameter absent, LookupFlight
answers 200 with the airline body. -/
theorem C3_success_and_only_injected_witness :
    truthy none = false
    ∧ (get_flights (fun _ _ => 100) "AA" none).result
        = Except.ok (JVal.obj [("AA", JVal.arr [JVal.num 100])], 200) :=
  ⟨rfl, (C3_success_and_only_injected (fun _ _ => 100) "AA" none none none rfl).2.2.1⟩

/-- C4: on the success path (raise absent or empty), LookupFlight with
airline "AA" returns status 200 and a body mapping "AA" to a
one-element list holding an integer N with 100 ≤ N ≤ 999. -/
theorem C4_lookup_AA_shape (r : Nat) (ra : Option String) (h : truthy ra = false) :
    ∃ N, (get_flights (fun low high => get_random_int low high r) "AA" ra).result
        = Except.ok (JVal.obj [("AA", JVal.arr [JVal.num N])], 200)
      ∧ 100 ≤ N ∧ N ≤ 999 := by
  refine ⟨get_random_int 100 999 r, by simp [get_flights, h], ?_, ?_⟩
  · simp [get_random_int]
  · have hm : r % (999 - 100 + 1) < 900 := Nat.mod_lt r (by norm_num)
    simp only [get_random_int]
    omega

/-- Closed witness for C4 at draw 0 and absent raise parameter. -/
theorem C4_lookup_AA_shape_witness :
    truthy none = false
    ∧ ∃ N, (get_flights (fun low high => get_random_int low high 0) "AA" none).result
        = Except.ok (JVal.obj [("AA", JVal.arr [JVal.num N])], 200)
      ∧ 100 ≤ N ∧ N ≤ 999 :=
  ⟨rfl, C4_lookup_AA_shape 0 none rfl⟩

/-- C5: on the success path, BookFlight echoes the supplied
passenger_name and flight_num unchanged and returns exactly the keys
passenger_name, flight_num and booking_id, the booking_id being an
integer N with 100 ≤ N ≤ 999, with status 200. -/
theorem C5_booking_shape (r : Nat) (p fn : String) (ra : Option String)
    (h : truthy ra = false) :
    ∃ N, (book_flight (fun low high => get_random_int low high r)
            (some p) (some fn) ra).result
        = Except.ok
            (JVal.obj [("passenger_name", JVal.str p),
                       ("flight_num", JVal.str fn),
                       ("booking_id", JVal.num N)], 200)
      ∧ 100 ≤ N ∧ N ≤ 999 := by
  refine ⟨get_random_int 100 999 r, by simp [book_flight, jsonOptStr, h], ?_, ?_⟩
  · simp [get_random_int]
  · have hm : r % (999 - 100 + 1) < 900 := Nat.mod_lt r (by norm_num)
    simp only [get_random_int]
    omega

/-- Closed witness for C5 at the spec test vector John Doe on flight 101. -/
theorem C5_booking_shape_witness :
    truthy none = false
    ∧ ∃ N, (book_flight (fun low high => get_random_int low high 5)
            (some "John Doe") (some "101") none).result
        = Except.ok
            (JVal.obj [("passenger_name", JVal.str "John Doe"),
                       ("flight_num", JVal.str "101"),
                       ("booking_id", JVal.num N)], 200)
      ∧ 100 ≤ N ∧ N ≤ 999 :=
  ⟨rfl, C5_booking_shape 5 "John Doe" "101" none rfl⟩

/-- C6: HealthCheck takes no input, always returns the body with the
single key status mapped to "healthy" and code 200, emits exactly one
informational log record, and never results in an error. -/
theorem C6_health_fixed :
    health.result = Except.ok (JVal.obj [("status", JVal.str "healthy")], 200)
    ∧ health.logs = [⟨LogLevel.info, "Health check endpoint called"⟩]
    ∧ health.logs.length = 1
    ∧ ∀ e, health.result ≠ Except.error e := by
  refine ⟨rfl, rfl, rfl, ?_⟩
  intro e he
  simp [health] at he

/-- C7: LookupFlight performs no validation of the airline parameter:
for every string airline, including values outside the advisory
enumerated set, the request is accepted and the supplied string is
echoed back as the key of the success body. -/
theorem C7_airline_unvalidated (gen : Nat → Nat → Nat) (airline : String)
    (ra : Option String) (h : truthy ra = false) :
    (get_flights gen airline ra).result
      = Except.ok (JVal.obj [(airline, JVal.arr [JVal.num (gen 100 999)])], 200) := by
  simp [get_flights, h]

/-- Closed witness for C7 at a string outside the advisory enum. -/
theorem C7_airline_unvalidated_witness :
    truthy none = false
    ∧ (get_flights (fun _ _ => 321) "NOT-AN-AIRLINE" none).result
        = Except.ok (JVal.obj [("NOT-AN-AIRLINE", JVal.arr [JVal.num 321])], 200) :=
  ⟨rfl, C7_airline_unvalidated (fun _ _ => 321) "NOT-AN-AIRLINE" none rfl⟩

/-- C8: in both LookupFlight and BookFlight the entry informational log
record is the first record emitted (parameter extraction then entry log
precede the branch), and on the failure path the random identifier
generator is never invoked: the whole handler output is independent of
the injected generator. -/
theorem C8_control_flow (gen gen2 : Nat → Nat → Nat) (airline : String)
    (p fn ra : Option String) :
    (get_flights gen airline ra).logs.head?
      = some ⟨LogLevel.info,
          "Get flights endpoint called for airline=" ++ airline ++
            ", raise=" ++ pyStr ra⟩
    ∧ (book_flight gen p fn ra).logs.head?
      = some ⟨LogLevel.info,
          "Book flight endpoint called for passenger=" ++ pyStr p ++
            ", flight_num=" ++ pyStr fn ++ ", raise=" ++ pyStr ra⟩
    ∧ (truthy ra = true →
        get_flights gen airline ra = get_flights gen2 airline ra
        ∧ book_flight gen p fn ra = book_flight gen2 p fn ra) := by
  refine ⟨?_, ?_, ?_⟩
  · by_cases h : truthy ra <;> simp [get_flights, h]
  · by_cases h : truthy ra <;> simp [book_flight, h]
  · intro h
    constructor <;> simp [get_flights, book_flight, h]

/-- Closed witness for C8: with raise set, two different generators give
bit-identical handler outputs. -/
theorem C8_control_flow_witness :
    get_flights (fun _ _ => 0) "AA" (some "500")
      = get_flights (fun _ _ => 7) "AA" (some "500") :=
  ((C8_control_flow (fun _ _ => 0) (fun _ _ => 7) "AA" none none
      (some "500")).2.2 (by decide)).1

/-- C9: when passenger_name or flight_num is entirely absent from a
BookFlight request, the handler still succeeds with status 200 and
echoes JSON null for the missing field; absence of these parameters
never produces an error. -/
theorem C9_missing_params_null (gen : Nat → Nat → Nat) (p fn ra : Option String)
    (h : truthy ra = false) :
    (book_flight gen none fn ra).result
      = Except.ok
          (JVal.obj [("passenger_name", JVal.null),
                     ("flight_num", jsonOptStr fn),
                     ("booking_id", JVal.num (gen 100 999))], 200)
    ∧ (book_flight gen p none ra).result
      = Except.ok
          (JVal.obj [("passenger_name", jsonOptStr p),
                     ("flight_num", JVal.null),
                     ("booking_id", JVal.num (gen 100 999))], 200)
    ∧ ∀ e, (book_flight gen none none ra).result ≠ Except.error e := by
  refine ⟨by simp [book_flight, jsonOptStr, h], by simp [book_flight, jsonOptStr, h], ?_⟩
  intro e he
  simp [book_flight, h] at he

/-- Closed witness for C9: both parameters absent, raise absent. -/
theorem C9_missing_params_null_witness :
    truthy none = false
    ∧ (book_flight (fun _ _ => 100) none none none).result
      = Except.ok
          (JVal.obj [("passenger_name", JVal.null),
                     ("flight_num", JVal.null),
                     ("booking_id", JVal.num 100)], 200) :=
  ⟨rfl, (C9_missing_params_null (fun _ _ => 100) none none none rfl).1⟩

/-- C10: each handler is deterministic modulo the generated integer: two
executions of LookupFlight (or BookFlight) with identical parameters
whose generators return the same value at (100, 999) produce identical
outputs (logs, body and status). -/
theorem C10_deterministic_mod_random (gen1 gen2 : Nat → Nat → Nat)
    (airline : String) (p fn ra : Option String)
    (h : gen1 100 999 = gen2 100 999) :
    get_flights gen1 airline ra = get_flights gen2 airline ra
    ∧ book_flight gen1 p fn ra = book_flight gen2 p fn ra := by
  constructor <;> by_cases hr : truthy ra <;>
    simp [get_flights, book_flight, h, hr]

/-- Closed witness for C10 at two generators agreeing at (100, 999). -/
theorem C10_deterministic_mod_random_witness :
    get_flights (fun _ _ => 42) "UA" none
      = get_flights (fun low _ => low - 58) "UA" none :=
  (C10_deterministic_mod_random (fun _ _ => 42) (fun low _ => low - 58)
      "UA" (some "Jane Doe") (some "202") none (by decide)).1
